import Mathlib

/-!
Verification development for the NeonVox TTS request broker
(src/backend/main.py and src/scripts/batch_tts_reels.py).

The Python code is shallowly embedded: pure fragments become Lean
functions, the optional third-party libraries (gTTS, pyttsx3, pydub)
become explicit environment records with availability flags and
abstract synthesis functions, and Python exceptions become Except
values.  Python strings are Lean String values; since Python len
counts code points, String.length (length of the underlying char
list) is the faithful length.  Audio payloads are opaque byte lists.

Error detail strings are reproduced from the source, except that the
single-quote characters around engine names and filenames are
omitted.
-/

/-- Opaque audio byte strings (the contents are never interpreted). -/
abbrev Bytes := List Nat

/-! ### Python string primitives (ASCII whitespace fragment) -/

/-- Python str.strip(): drop whitespace from both ends.
Modelled on the underlying character list (ASCII whitespace). -/
def pyStrip (s : String) : String :=
  ⟨((s.data.dropWhile Char.isWhitespace).reverse.dropWhile Char.isWhitespace).reverse⟩

/-- Python str.lower() (ASCII fragment, via Char.toLower). -/
def pyLower (s : String) : String :=
  ⟨s.data.map Char.toLower⟩

/-- Python substring test: needle in hay.  The empty needle is a
substring of everything, as in Python. -/
def pyContains (hay needle : String) : Bool :=
  hay.data.tails.any (fun t => needle.data.isPrefixOf t)

/-- Python str.endswith. -/
def pyEndsWith (s suffix : String) : Bool :=
  suffix.data.isSuffixOf s.data

/-! ### Configuration constants (src/backend/main.py lines 39-41) -/

/-- Default value of MAX_CHARS (env NEONVOX_MAX_CHARS, default 2000).
The functions below take the limit as a parameter; this is the
default instantiation. -/
def MAX_CHARS : Nat := 2000

/-! ### Single-request model (src/backend/main.py lines 43-67, 134-144) -/

/-- The body of POST /api/tts (class TTSRequest). -/
structure TTSRequest where
  text : String
  engine : String := "gtts"
  lang : String := "en"
  voice : Option String := none
  rate : Option Int := none
  volume : Option Rat := none

/-- TTSRequest.validate_engine (main.py lines 51-57). -/
def validate_engine (v : String) : Except String String :=
  let v := pyLower v
  if v = "gtts" ∨ v = "pyttsx3" then .ok v
  else .error "engine must be gtts or pyttsx3"

/-- TTSRequest.validate_text (main.py lines 59-67): strip, reject
empty, reject when the stripped length exceeds the limit. -/
def validate_text (maxChars : Nat) (v : String) : Except String String :=
  let v := pyStrip v
  if v = "" then .error "text is required"
  else if maxChars < v.length then
    .error ("text exceeds limit of " ++ toString maxChars ++ " characters")
  else .ok v

/-- The POST /api/tts handler (main.py lines 134-144).  Pydantic runs
the field validators before the handler body executes.  The two
backends (synthesize_gtts / synthesize_pyttsx3_mp3) are abstract
parameters; the second component counts backend synthesis calls. -/
def tts (maxChars : Nat) (req : TTSRequest)
    (synthG synthP : String → Except String Bytes) :
    Except String Bytes × Nat :=
  match validate_engine req.engine with
  | .error e => (.error e, 0)
  | .ok eng =>
    match validate_text maxChars req.text with
    | .error e => (.error e, 0)
    | .ok text =>
      if eng = "gtts" then
        match synthG text with
        | .ok b => (.ok b, 1)
        | .error e => (.error e, 1)
      else
        match synthP text with
        | .ok b => (.ok b, 1)
        | .error e => (.error e, 1)

/-! ### Filename helpers: os.path.splitext and pathlib stem -/

/-- Python str.rfind for a single character: index of the last
occurrence, -1 when absent. -/
def rfindIdx (l : List Char) (c : Char) : Int :=
  match l.reverse.findIdx? (fun x => x = c) with
  | none => -1
  | some j => (l.length : Int) - 1 - (j : Int)

/-- The root part of os.path.posix splitext(p) (CPython
genericpath._splitext): split at the last dot after the last slash,
unless every character between them is a dot (leading dots of the
base name never start an extension). -/
def splitextRoot (p : String) : String :=
  let l := p.data
  let sepIdx := rfindIdx l '/'
  let dotIdx := rfindIdx l '.'
  if sepIdx < dotIdx then
    let nameStart := (sepIdx + 1).toNat
    let between := (l.drop nameStart).take (dotIdx.toNat - nameStart)
    if between.any (fun c => c ≠ '.') then ⟨l.take dotIdx.toNat⟩ else p
  else p

/-- Archive entry name used by tts_csv (main.py lines 184, 189):
splitext root of the item filename with .mp3 appended. -/
def entryName (filename : String) : String :=
  splitextRoot filename ++ ".mp3"

/-- pathlib PurePath(p).stem: final path component without its last
suffix; a dot at position 0 or at the very end of the name does not
start a suffix. -/
def pathStem (p : String) : String :=
  let name := (p.data.reverse.takeWhile (fun c => c ≠ '/')).reverse
  let i := rfindIdx name '.'
  if 0 < i ∧ i < (name.length : Int) - 1 then ⟨name.take i.toNat⟩
  else ⟨name⟩

/-! ### Batch model: POST /api/tts-csv (main.py lines 147-193) -/

/-- One CSV row as seen by the handler: the two relevant cells, with
a missing cell represented as the empty string (the code reads
r.get(column) or the empty string). -/
structure CsvRow where
  filename : String
  script_text : String
deriving DecidableEq

/-- A validated batch item (stripped filename and text). -/
structure Item where
  filename : String
  script_text : String
deriving DecidableEq

/-- The failures tts_csv can report (each HTTPException raised by the
handler or propagated from a synthesis function). -/
inductive BatchError where
  | badEngine
  | rowTooLong (fn : String) (limit : Nat)
  | emptyBatch
  | synthFailed (detail : String)
deriving DecidableEq

/-- The detail string of each failure, as built by the source.  A
synthesis failure propagates the underlying detail unchanged: the
handler adds nothing to it. -/
def renderBatchError : BatchError → String
  | .badEngine => "engine must be gtts or pyttsx3"
  | .rowTooLong fn limit =>
      "Row " ++ fn ++ ": text exceeds " ++ toString limit ++ " chars"
  | .emptyBatch =>
      "CSV appears empty or missing required columns: filename, script_text"
  | .synthFailed d => d

/-- Which item filename a failure names, structurally: only the
per-row length check interpolates a filename into its message. -/
def errorNamesFile : BatchError → Option String
  | .rowTooLong fn _ => some fn
  | _ => none

/-- A row survives the silent-skip filter when both stripped cells
are non-empty (main.py lines 169-172). -/
def validRow (r : CsvRow) : Bool :=
  decide (pyStrip r.filename ≠ "" ∧ pyStrip r.script_text ≠ "")

/-- The row-collection loop of tts_csv (main.py lines 166-175):
strip both cells, silently skip rows with a blank cell, fail on the
first remaining row whose text exceeds the limit, keep the rest in
order. -/
def collectRows (maxChars : Nat) : List CsvRow → Except BatchError (List Item)
  | [] => .ok []
  | r :: rest =>
    let fn := pyStrip r.filename
    let txt := pyStrip r.script_text
    if fn = "" ∨ txt = "" then collectRows maxChars rest
    else if maxChars < txt.length then .error (.rowTooLong fn maxChars)
    else (collectRows maxChars rest).map (fun items => ⟨fn, txt⟩ :: items)

/-- The per-item engine dispatch inside the zip loop (main.py lines
185-188): gtts goes to synthesize_gtts, otherwise pyttsx3. -/
def engineSynth (eng : String) (sG sP : Item → Except String Bytes) :
    Item → Except String Bytes :=
  fun item => if eng = "gtts" then sG item else sP item

/-- The zip-writing loop of tts_csv (main.py lines 182-189): items in
order, one archive entry per item, aborting on the first synthesis
failure.  Returns the archive (entry name, bytes) and the number of
synthesis calls made. -/
def zipEntries (synth : Item → Except String Bytes) :
    List Item → Except BatchError (List (String × Bytes)) × Nat
  | [] => (.ok [], 0)
  | i :: rest =>
    match synth i with
    | .error e => (.error (.synthFailed e), 1)
    | .ok b =>
      match zipEntries synth rest with
      | (.ok arch, n) => (.ok ((entryName i.filename, b) :: arch), n + 1)
      | (.error err, n) => (.error err, n + 1)

/-- The POST /api/tts-csv handler (main.py lines 147-193), from the
point where the CSV rows have been decoded.  Engine check, row
collection with fail-fast length validation, empty-batch check, then
the sequential zip loop. -/
def tts_csv (maxChars : Nat) (engine : String) (rows : List CsvRow)
    (sG sP : Item → Except String Bytes) :
    Except BatchError (List (String × Bytes)) × Nat :=
  let eng := pyLower engine
  if eng = "gtts" ∨ eng = "pyttsx3" then
    match collectRows maxChars rows with
    | .error e => (.error e, 0)
    | .ok [] => (.error .emptyBatch, 0)
    | .ok items => zipEntries (engineSynth eng sG sP) items
  else (.error .badEngine, 0)

/-! ### pyttsx3 engine model (main.py lines 83-126) -/

/-- One entry of engine.getProperty voices. -/
structure Voice where
  id : String
  name : String
  gender : String
deriving DecidableEq

/-- The mutable state of one pyttsx3 engine instance: the three
properties the code ever sets. -/
structure EngineState where
  rate : Int
  volume : Rat
  voiceId : Option String
deriving DecidableEq

/-- The rate/volume configuration block shared by main.py lines
106-109 and batch_tts_reels.py lines 83-86.  Python truthiness makes
rate None and rate 0 both no-ops, while volume is applied whenever it
is not None, including at 0.0. -/
def configureEngine (d : EngineState) (rate : Option Int) (volume : Option Rat) :
    EngineState :=
  let e := match rate with
    | some r => if r ≠ 0 then { d with rate := r } else d
    | none => d
  match volume with
  | some v => { e with volume := v }
  | none => e

/-- The pyttsx3 / pydub world a synthesis call runs in.  voicesRes is
the outcome of engine.getProperty voices (error = the call raised);
setVoiceFails models engine.setProperty voice raising; synthWav is
the audio the engine writes for a given configuration and text;
convert is the pydub/ffmpeg WAV to MP3 step. -/
structure Pyttsx3Env where
  pyttsx3Avail : Bool
  pydubAvail : Bool
  defaults : EngineState
  voicesRes : Except String (List Voice)
  setVoiceFails : Bool
  synthWav : EngineState → String → Bytes
  convert : Bytes → Except String Bytes

/-- The match test of the voice-preference scan: the lowercased
preference is a substring of the lowercased name or of the lowercased
gender label. -/
def voiceMatches (pref : String) (v : Voice) : Bool :=
  pyContains (pyLower v.name) (pyLower pref) ||
    pyContains (pyLower v.gender) (pyLower pref)

/-- _pyttsx3_select_voice (main.py lines 83-96).  A None or empty
preference is skipped (Python: if not pref).  Everything inside the
try block — enumeration and the property write — has its exceptions
swallowed, leaving the engine state unchanged. -/
def _pyttsx3_select_voice (env : Pyttsx3Env) (e : EngineState)
    (pref : Option String) : EngineState :=
  match pref with
  | none => e
  | some p =>
    if p = "" then e
    else
      match env.voicesRes with
      | .error _ => e
      | .ok voices =>
        match voices.find? (voiceMatches p) with
        | none => e
        | some v => if env.setVoiceFails then e else { e with voiceId := some v.id }

/-- Modelled from the spec section 4.2 for comparison with the code:
select the first voice where the lowercased preference string is a
substring of the lowercased name or the lowercased gender label. -/
def selectVoiceSpec (pref : String) (voices : List Voice) : Option Voice :=
  voices.find? (voiceMatches pref)

deriving instance DecidableEq for Except

/-- The errors synthesize_pyttsx3_mp3 raises itself. -/
inductive PyErr where
  | backendUnavailable
  | transcoderUnavailable
  | conversionFailed (cause : String)
deriving DecidableEq

/-- Outcome of one synthesize_pyttsx3_mp3 call: the result, the
number of engine synthesis runs, and the files left on disk after
the call (the temporary directory removes its contents on every exit
path, so this is empty on all paths). -/
structure SynthOut where
  result : Except PyErr Bytes
  synthCalls : Nat
  filesLeft : List String
deriving DecidableEq

/-- synthesize_pyttsx3_mp3 (main.py lines 99-126).  Availability of
pyttsx3 is checked first, then of pydub, both before any engine work.
pyttsx3.init() constructs a fresh engine from the library defaults —
the incoming state w (what a state-retaining implementation would
have kept from earlier calls) is never read; the returned state is
the configuration this call applied. -/
def synthesize_pyttsx3_mp3 (env : Pyttsx3Env) (text : String)
    (voice : Option String) (rate : Option Int) (volume : Option Rat)
    (w : EngineState) : SynthOut × EngineState :=
  if env.pyttsx3Avail then
    if env.pydubAvail then
      let e := configureEngine env.defaults rate volume
      let e := _pyttsx3_select_voice env e voice
      let wav := env.synthWav e text
      match env.convert wav with
      | .ok mp3 => (⟨.ok mp3, 1, []⟩, e)
      | .error c => (⟨.error (.conversionFailed c), 1, []⟩, e)
    else (⟨.error .transcoderUnavailable, 0, []⟩, w)
  else (⟨.error .backendUnavailable, 0, []⟩, w)

/-! ### CLI model: src/scripts/batch_tts_reels.py -/

/-- load_from_csv (script lines 33-44): keep rows with both stripped
cells non-empty, in order; no length validation of any kind; an empty
result is a SystemExit.  The same CsvRow representation is used as
for the HTTP handler. -/
def loadRows : List CsvRow → List Item
  | [] => []
  | r :: rest =>
    let fn := pyStrip r.filename
    let txt := pyStrip r.script_text
    if fn ≠ "" ∧ txt ≠ "" then ⟨fn, txt⟩ :: loadRows rest else loadRows rest

/-- The final emptiness check of load_from_csv (script lines 42-44). -/
def load_from_csv (rows : List CsvRow) : Except String (List Item) :=
  if loadRows rows = [] then
    .error "CSV appears empty or missing required columns: filename, script_text"
  else .ok (loadRows rows)

/-- Outcome of one CLI save run: result, number of synthesis calls,
and the audio files written into the output directory. -/
structure CliOut where
  result : Except String Unit
  synthCalls : Nat
  files : List String
deriving DecidableEq

/-- Output name used by save_with_gtts (script lines 57-59): append
.mp3 unless the lowercased name already ends with it. -/
def gttsOutName (fn : String) : String :=
  if pyEndsWith (pyLower fn) ".mp3" then fn else fn ++ ".mp3"

/-- save_with_gtts (script lines 49-63): one gTTS synthesis per item,
each saved directly as MP3.  gTTS call failures are not modelled
(no claim concerns them); the import failure is. -/
def save_with_gtts (gttsAvail : Bool) (items : List Item) : CliOut :=
  if gttsAvail then
    ⟨.ok (), items.length, items.map (fun i => gttsOutName i.filename)⟩
  else ⟨.error "gTTS not found. Install with: pip install gTTS", 0, []⟩

/-- The gtts branch of the CLI main (script lines 128-131): load the
CSV, then save every loaded item. -/
def cli_main_gtts (gttsAvail : Bool) (rows : List CsvRow) : CliOut :=
  match load_from_csv rows with
  | .error e => ⟨.error e, 0, []⟩
  | .ok items => save_with_gtts gttsAvail items

/-- wav_to_mp3_if_possible (script lines 65-73): when pydub is
missing it prints and returns, keeping the WAV only; otherwise the
MP3 is written next to it.  (A pydub conversion error would propagate
uncaught; no claim concerns that path, so conversion succeeds when
the library is present.)  Returns the files present afterwards. -/
def wav_to_mp3_if_possible (pydubAvail : Bool) (mp3Name : String)
    (files : List String) : List String :=
  if pydubAvail then files ++ [mp3Name] else files

/-- The voice-preference block of save_with_pyttsx3 (script lines
88-99).  Unlike the backend helper there is no try/except: a raising
enumeration propagates.  A falsy (empty) selected id is not applied
(Python: if selected_id). -/
def cliSelectVoice (voicesRes : Except String (List Voice)) (e : EngineState)
    (pref : Option String) : Except String EngineState :=
  match pref with
  | none => .ok e
  | some p =>
    if p = "" then .ok e
    else
      match voicesRes with
      | .error msg => .error msg
      | .ok voices =>
        match (voices.find? (voiceMatches p)).map Voice.id with
        | none => .ok e
        | some id => if id = "" then .ok e else .ok { e with voiceId := some id }

/-- The environment of one CLI pyttsx3 run. -/
structure CliPyEnv where
  pyttsx3Avail : Bool
  pydubAvail : Bool
  defaults : EngineState
  voicesRes : Except String (List Voice)

/-- The per-item loop of save_with_pyttsx3 (script lines 101-109):
each item synthesizes a WAV named after the pathlib stem of its
filename, then optionally converts.  Returns synthesis count and the
files written. -/
def cliItemsLoop (pydubAvail mp3Convert : Bool) : List Item → Nat × List String
  | [] => (0, [])
  | i :: rest =>
    let base := pathStem i.filename
    let wavFiles := [base ++ ".wav"]
    let files :=
      if mp3Convert then wav_to_mp3_if_possible pydubAvail (base ++ ".mp3") wavFiles
      else wavFiles
    let (n, fs) := cliItemsLoop pydubAvail mp3Convert rest
    (n + 1, files ++ fs)

/-- save_with_pyttsx3 (script lines 75-109).  One engine is
constructed fresh per invocation (pyttsx3.init()), configured once,
then used for every item of the batch.  As in the backend model, the
incoming state w is what a state-retaining implementation would have
kept; the code never reads it. -/
def save_with_pyttsx3 (env : CliPyEnv) (items : List Item)
    (voicePref : Option String) (rate : Option Int) (volume : Option Rat)
    (mp3Convert : Bool) (w : EngineState) : CliOut × EngineState :=
  if env.pyttsx3Avail then
    let e := configureEngine env.defaults rate volume
    match cliSelectVoice env.voicesRes e voicePref with
    | .error msg => (⟨.error msg, 0, []⟩, w)
    | .ok e =>
      let (n, fs) := cliItemsLoop env.pydubAvail mp3Convert items
      (⟨.ok (), n, fs⟩, e)
  else (⟨.error "pyttsx3 not found. Install with: pip install pyttsx3", 0, []⟩, w)

/-- A row whose stripped text exceeds the limit. -/
def oversizedRow (maxChars : Nat) (r : CsvRow) : Bool :=
  decide (maxChars < (pyStrip r.script_text).length)

/-- The payload of a successful synthesis result (only ever applied
on paths where the result is known to be a success). -/
def okBytes : Except String Bytes → Bytes
  | .ok b => b
  | .error _ => []

/-! ### Concrete fixtures used by witnesses and counterexamples -/

/-- A 2001-character text, one more than the default MAX_CHARS. -/
def longX : String := ⟨List.replicate 2001 'x'⟩

/-- A text of raw length 2001 whose stripped length is 2000. -/
def textPad : String := ⟨List.replicate 2000 'a' ++ [' ']⟩

/-- A default engine configuration. -/
def d0 : EngineState := ⟨200, 1, none⟩

/-- An unrelated previously-configured engine state. -/
def w0 : EngineState := ⟨77, 1/2, some "idw"⟩

/-- A cloud backend that always succeeds. -/
def sgOk : Item → Except String Bytes := fun _ => .ok [1]

/-- A local backend that always succeeds. -/
def spOk : Item → Except String Bytes := fun _ => .ok [2]

/-- Single-request backends that always succeed. -/
def sgStr : String → Except String Bytes := fun _ => .ok [1]

/-- Single-request local backend that always succeeds. -/
def spStr : String → Except String Bytes := fun _ => .ok [2]

/-- A cloud backend that fails exactly on the item named b.mp3, with
the detail string raised by synthesize_gtts when gTTS is missing. -/
def sgFailB : Item → Except String Bytes :=
  fun i => if i.filename = "b.mp3" then
    .error "gTTS not installed. Run: pip install gTTS"
  else .ok [1]

/-- A voice list entry. -/
def aliceVoice : Voice := ⟨"id1", "Alice", "female"⟩

/-- A pyttsx3 world whose voice enumeration raises and whose voice
property write would also raise. -/
def envVoiceErr : Pyttsx3Env :=
  ⟨true, true, d0, .error "boom", true, fun _ _ => [1, 2], fun b => .ok (b ++ [3])⟩

/-- A fully working pyttsx3 world with a single voice. -/
def envAlice : Pyttsx3Env :=
  ⟨true, true, d0, .ok [aliceVoice], false, fun _ _ => [1, 2], fun b => .ok (b ++ [3])⟩

/-- A pyttsx3 world with the transcoder (pydub) missing. -/
def envNoPydub : Pyttsx3Env :=
  ⟨true, false, d0, .ok [aliceVoice], false, fun _ _ => [1, 2], fun b => .ok (b ++ [3])⟩

/-- A CLI pyttsx3 world with pydub missing. -/
def cliNoPydub : CliPyEnv := ⟨true, false, d0, .ok []⟩

/-! ### Helper lemmas about the Python string primitives -/

theorem dropWhile_eq_self_of_forall {p : Char → Bool} :
    ∀ {l : List Char}, (∀ c ∈ l, p c = false) → l.dropWhile p = l
  | [], _ => rfl
  | a :: l, h => by
    rw [List.dropWhile_cons, h a (List.mem_cons_self a l)]
    simp

theorem dropWhile_append_of_forall {p : Char → Bool} :
    ∀ {x : List Char} (y : List Char), (∀ c ∈ x, p c = true) →
      (x ++ y).dropWhile p = y.dropWhile p
  | [], y, _ => rfl
  | a :: x, y, h => by
    rw [List.cons_append, List.dropWhile_cons, h a (List.mem_cons_self a x)]
    exact dropWhile_append_of_forall y (fun c hc => h c (List.mem_cons_of_mem a hc))

/-- Stripping a string with no whitespace characters is the identity. -/
theorem pyStrip_of_forall_nws {l : List Char}
    (h : ∀ c ∈ l, c.isWhitespace = false) : pyStrip ⟨l⟩ = ⟨l⟩ := by
  unfold pyStrip
  rw [show (String.mk l).data = l from rfl, dropWhile_eq_self_of_forall h,
    dropWhile_eq_self_of_forall (fun c hc => h c (List.mem_reverse.mp hc)),
    List.reverse_reverse]

/-- Stripping a non-empty whitespace-free string followed by trailing
whitespace yields the whitespace-free part. -/
theorem pyStrip_append_ws {l t : List Char}
    (hl : ∀ c ∈ l, c.isWhitespace = false) (hne : l ≠ [])
    (ht : ∀ c ∈ t, c.isWhitespace = true) :
    pyStrip ⟨l ++ t⟩ = ⟨l⟩ := by
  unfold pyStrip
  rw [show (String.mk (l ++ t)).data = l ++ t from rfl]
  obtain ⟨a, l', rfl⟩ := List.exists_cons_of_ne_nil hne
  rw [List.cons_append, List.dropWhile_cons, hl a (List.mem_cons_self a l')]
  simp only [Bool.false_eq_true, if_false]
  rw [show a :: (l' ++ t) = (a :: l') ++ t from rfl, List.reverse_append,
    dropWhile_append_of_forall _ (fun c hc => ht c (List.mem_reverse.mp hc)),
    dropWhile_eq_self_of_forall (fun c hc => hl c (List.mem_reverse.mp hc)),
    List.reverse_reverse]

theorem pyStrip_longX : pyStrip longX = longX := by
  unfold longX
  exact pyStrip_of_forall_nws (fun c hc => by
    rw [(List.mem_replicate.mp hc).2]
    rfl)

theorem replicate_char_ne_nil {n : Nat} (hn : n ≠ 0) (a : Char) :
    List.replicate n a ≠ [] := by
  intro h
  have hlen := congrArg List.length h
  rw [List.length_replicate] at hlen
  exact hn (hlen.trans rfl)

theorem mk_replicate_length (n : Nat) (a : Char) :
    (String.mk (List.replicate n a)).length = n := by
  rw [show (String.mk (List.replicate n a)).length
      = (List.replicate n a).length from rfl, List.length_replicate]

theorem mk_replicate_ne_empty {n : Nat} (hn : n ≠ 0) (a : Char) :
    (String.mk (List.replicate n a)) ≠ "" := by
  intro h
  have hlen := congrArg String.length h
  rw [mk_replicate_length, show String.length "" = 0 from rfl] at hlen
  exact hn hlen

theorem longX_ne_empty : longX ≠ "" := mk_replicate_ne_empty (by decide) 'x'

theorem longX_length : longX.length = 2001 := mk_replicate_length 2001 'x'

theorem pyStrip_textPad : pyStrip textPad = ⟨List.replicate 2000 'a'⟩ := by
  unfold textPad
  refine pyStrip_append_ws (fun c hc => ?_)
    (replicate_char_ne_nil (by decide) 'a') (fun c hc => ?_)
  · rw [(List.mem_replicate.mp hc).2]
    rfl
  · rcases List.mem_singleton.mp hc with rfl
    rfl

/-- validate_text succeeds exactly on the stripped text when that is
non-empty and within the limit. -/
theorem validate_text_ok {maxChars : Nat} {s v : String} (hs : pyStrip s = v)
    (h1 : ¬ v = "") (h2 : ¬ maxChars < v.length) :
    validate_text maxChars s = .ok v := by
  show (if pyStrip s = "" then _
    else if maxChars < (pyStrip s).length then _ else _) = _
  rw [hs, if_neg h1, if_neg h2]

/-! ### Structural lemmas about the batch pipeline -/

/-- Rows with a blank cell are invisible to the collection loop: it
behaves exactly as if they had been filtered away first.  In
particular a skipped row is never an error, whatever its text length,
and the length and empty-batch checks only ever see surviving rows. -/
theorem collectRows_eq_filter (maxChars : Nat) :
    ∀ rows, collectRows maxChars rows = collectRows maxChars (rows.filter validRow)
  | [] => rfl
  | r :: rows => by
    by_cases h : pyStrip r.filename = "" ∨ pyStrip r.script_text = ""
    · have hv : ¬ validRow r = true := by
        simp only [validRow, decide_eq_true_eq]
        tauto
      rw [List.filter_cons_of_neg hv]
      show (if pyStrip r.filename = "" ∨ pyStrip r.script_text = ""
        then collectRows maxChars rows else _) = _
      rw [if_pos h]
      exact collectRows_eq_filter maxChars rows
    · have hv : validRow r = true := by
        simp only [validRow, decide_eq_true_eq]
        tauto
      rw [List.filter_cons_of_pos hv]
      show (if pyStrip r.filename = "" ∨ pyStrip r.script_text = "" then _ else _)
        = (if pyStrip r.filename = "" ∨ pyStrip r.script_text = "" then _ else _)
      rw [if_neg h, if_neg h]
      by_cases hlen : maxChars < (pyStrip r.script_text).length
      · rw [if_pos hlen, if_pos hlen]
      · rw [if_neg hlen, if_neg hlen, collectRows_eq_filter maxChars rows]

/-- On a list of surviving rows, the collection loop fails on the
first oversized row, naming its stripped filename and the limit. -/
theorem collectRows_first_oversized (maxChars : Nat) :
    ∀ {l : List CsvRow} {r : CsvRow}, (∀ x ∈ l, validRow x = true) →
      l.find? (oversizedRow maxChars) = some r →
      collectRows maxChars l = .error (.rowTooLong (pyStrip r.filename) maxChars)
  | [], _, _, hfind => by cases hfind
  | a :: l, r, hvalid, hfind => by
    have ha := hvalid a (List.mem_cons_self a l)
    simp only [validRow, decide_eq_true_eq] at ha
    have hskip : ¬ (pyStrip a.filename = "" ∨ pyStrip a.script_text = "") := by
      tauto
    show (if pyStrip a.filename = "" ∨ pyStrip a.script_text = "" then _ else _) = _
    rw [if_neg hskip]
    rw [List.find?_cons] at hfind
    cases hbad : oversizedRow maxChars a with
    | true =>
      rw [hbad] at hfind
      injection hfind with hra
      subst hra
      simp only [oversizedRow, decide_eq_true_eq] at hbad
      rw [if_pos hbad]
    | false =>
      rw [hbad] at hfind
      simp only [oversizedRow, decide_eq_false_iff_not] at hbad
      rw [if_neg hbad,
        collectRows_first_oversized maxChars
          (fun x hx => hvalid x (List.mem_cons_of_mem a hx)) hfind]
      rfl

/-- A successful zip loop produces exactly one entry per item, in
input order, named by entryName, carrying that item's synthesized
bytes, and makes exactly one synthesis call per item. -/
theorem zipEntries_ok (synth : Item → Except String Bytes) :
    ∀ {items : List Item} {arch : List (String × Bytes)} {n : Nat},
      zipEntries synth items = (.ok arch, n) →
      arch = items.map (fun i => (entryName i.filename, okBytes (synth i)))
        ∧ n = items.length
  | [], arch, n, h => by
    unfold zipEntries at h
    cases h
    exact ⟨rfl, rfl⟩
  | i :: items, arch, n, h => by
    unfold zipEntries at h
    cases hs : synth i with
    | error e => rw [hs] at h; cases h
    | ok b =>
      rw [hs] at h
      cases hz : zipEntries synth items with
      | mk res m =>
        cases res with
        | error err => rw [hz] at h; cases h
        | ok arch' =>
          rw [hz] at h
          cases h
          obtain ⟨h1, h2⟩ := zipEntries_ok synth hz
          subst h1 h2
          exact ⟨by rw [List.map_cons, hs]; rfl, rfl⟩

/-- When every item before position k synthesizes and item k fails,
the zip loop aborts with exactly the underlying failure after k + 1
synthesis calls: items after k are never attempted. -/
theorem zipEntries_fail_at (synth : Item → Except String Bytes) :
    ∀ {items : List Item} {k : Nat} (hk : k < items.length) {d : String},
      (∀ i ∈ items.take k, ∃ b, synth i = .ok b) →
      synth (items.get ⟨k, hk⟩) = .error d →
      zipEntries synth items = (.error (.synthFailed d), k + 1)
  | [], k, hk, _, _, _ => absurd hk (Nat.not_lt_zero k)
  | i :: items, 0, hk, d, _, hfail => by
    unfold zipEntries
    rw [show (i :: items).get ⟨0, hk⟩ = i from rfl] at hfail
    rw [hfail]
  | i :: items, k + 1, hk, d, hbefore, hfail => by
    obtain ⟨b, hb⟩ := hbefore i (by
      rw [List.take_succ_cons]
      exact List.mem_cons_self i _)
    unfold zipEntries
    rw [hb]
    have hk' : k < items.length := Nat.lt_of_succ_lt_succ hk
    rw [List.get_cons_succ] at hfail
    have hrest := zipEntries_fail_at synth hk'
      (fun x hx => hbefore x (by
        rw [List.take_succ_cons]
        exact List.mem_cons_of_mem i hx)) hfail
    rw [hrest]

/-- tts_csv with a valid engine reduces to row collection, the
empty-batch check, then the zip loop. -/
theorem tts_csv_valid_engine (maxChars : Nat) (engine : String)
    (rows : List CsvRow) (sG sP : Item → Except String Bytes)
    (heng : pyLower engine = "gtts" ∨ pyLower engine = "pyttsx3") :
    tts_csv maxChars engine rows sG sP =
      match collectRows maxChars rows with
      | .error e => (.error e, 0)
      | .ok [] => (.error .emptyBatch, 0)
      | .ok items => zipEntries (engineSynth (pyLower engine) sG sP) items := by
  unfold tts_csv
  rw [if_pos heng]

/-! ### Claims -/

/-- C1 (amended to the HTTP CSV endpoint): for every batch submitted
to the CSV endpoint with a valid engine name, if the blank-filtered
rows contain an oversized item then the batch fails identifying the
first such item (its stripped filename) and the limit, and no
backend synthesis is invoked for any item.  The standalone CLI batch
script performs no length validation, so the original claim over
every batch is refuted by C1_counterexample_cli_synthesizes_oversized. -/
theorem C1_csv_lengths_validated_before_any_synthesis
    (maxChars : Nat) (engine : String) (rows : List CsvRow)
    (sG sP : Item → Except String Bytes) (r : CsvRow)
    (heng : pyLower engine = "gtts" ∨ pyLower engine = "pyttsx3")
    (hfind : (rows.filter validRow).find? (oversizedRow maxChars) = some r) :
    tts_csv maxChars engine rows sG sP
      = (.error (.rowTooLong (pyStrip r.filename) maxChars), 0) := by
  have hcoll : collectRows maxChars rows
      = .error (.rowTooLong (pyStrip r.filename) maxChars) := by
    rw [collectRows_eq_filter]
    exact collectRows_first_oversized maxChars
      (fun x hx => (List.mem_filter.mp hx).2) hfind
  rw [tts_csv_valid_engine _ _ _ _ _ heng, hcoll]

/-- C1 witness: a two-row batch whose second row is oversized at
limit 5 fails naming that row, with zero synthesis calls. -/
theorem C1_witness :
    tts_csv 5 "gtts" [⟨"ok.mp3", "hi"⟩, ⟨"big.mp3", "123456"⟩] sgOk spOk
      = (.error (.rowTooLong "big.mp3" 5), 0) := by
  have h := C1_csv_lengths_validated_before_any_synthesis 5 "gtts"
    [⟨"ok.mp3", "hi"⟩, ⟨"big.mp3", "123456"⟩] sgOk spOk ⟨"big.mp3", "123456"⟩
    (Or.inl (by decide)) (by decide)
  rw [h]
  decide

/-- C1 counterexample: the CLI script never checks any length: a
batch whose single item has 2001 characters of text (over the
default limit of 2000) is loaded and synthesized (one gTTS call,
one output file) instead of failing with no synthesis. -/
theorem C1_counterexample_cli_synthesizes_oversized :
    MAX_CHARS = 2000 ∧ (pyStrip longX).length = 2001 ∧
    cli_main_gtts true [⟨"a.mp3", longX⟩] = ⟨.ok (), 1, ["a.mp3"]⟩ := by
  refine ⟨rfl, ?_, ?_⟩
  · rw [pyStrip_longX]
    exact longX_length
  · have hfn : pyStrip "a.mp3" = "a.mp3" := by decide
    have hrows : loadRows [⟨"a.mp3", longX⟩] = [⟨"a.mp3", longX⟩] := by
      simp only [loadRows]
      rw [hfn, pyStrip_longX,
        if_pos (⟨by decide, longX_ne_empty⟩ : ("a.mp3" : String) ≠ "" ∧ longX ≠ "")]
    have hload : load_from_csv [⟨"a.mp3", longX⟩] = .ok [⟨"a.mp3", longX⟩] := by
      unfold load_from_csv
      rw [hrows, if_neg (by simp)]
    unfold cli_main_gtts
    rw [hload]
    decide

/-- C2 (amended): for every batch processed in input order, if
synthesis of item k fails while all earlier items succeed, the whole
batch aborts: the result carries no archive, the error is exactly the
underlying synthesis failure — which names no item — and no item
after k is attempted (exactly k + 1 synthesis calls are made).  The
original claim that the error references item k is refuted by
C2_counterexample_error_lacks_item_identity. -/
theorem C2_fail_fast_abort_without_item_identity
    (maxChars : Nat) (engine : String) (rows : List CsvRow)
    (sG sP : Item → Except String Bytes) (items : List Item)
    (k : Nat) (hk : k < items.length) (d : String)
    (heng : pyLower engine = "gtts" ∨ pyLower engine = "pyttsx3")
    (hrows : collectRows maxChars rows = .ok items)
    (hbefore : ∀ i ∈ items.take k,
      ∃ b, engineSynth (pyLower engine) sG sP i = .ok b)
    (hfail : engineSynth (pyLower engine) sG sP (items.get ⟨k, hk⟩) = .error d) :
    tts_csv maxChars engine rows sG sP = (.error (.synthFailed d), k + 1)
    ∧ errorNamesFile (.synthFailed d) = none := by
  refine ⟨?_, rfl⟩
  rw [tts_csv_valid_engine _ _ _ _ _ heng, hrows]
  cases items with
  | nil => exact absurd hk (Nat.not_lt_zero k)
  | cons i rest => exact zipEntries_fail_at _ hk hbefore hfail

/-- C2 witness: in a three-item batch whose second item fails, the
batch aborts with the underlying failure after two synthesis calls. -/
theorem C2_witness :
    tts_csv 2000 "gtts"
      [⟨"a.mp3", "hello"⟩, ⟨"b.mp3", "world"⟩, ⟨"c.mp3", "there"⟩] sgFailB spOk
      = (.error (.synthFailed "gTTS not installed. Run: pip install gTTS"), 2)
    ∧ errorNamesFile (.synthFailed "gTTS not installed. Run: pip install gTTS")
      = none :=
  C2_fail_fast_abort_without_item_identity 2000 "gtts"
    [⟨"a.mp3", "hello"⟩, ⟨"b.mp3", "world"⟩, ⟨"c.mp3", "there"⟩] sgFailB spOk
    [⟨"a.mp3", "hello"⟩, ⟨"b.mp3", "world"⟩, ⟨"c.mp3", "there"⟩] 1 (by decide)
    "gTTS not installed. Run: pip install gTTS" (Or.inl (by decide)) (by decide)
    (by
      intro i hi
      have : i = ⟨"a.mp3", "hello"⟩ := by
        simpa using hi
      subst this
      exact ⟨[1], by decide⟩)
    (by decide)

/-- C2 counterexample: item 2 of 3 (named b.mp3) fails; the batch
does abort after two calls, but the surfaced error is the backend's
own message, which contains neither the item's filename nor its
index — the claim that the error references item k is false here. -/
theorem C2_counterexample_error_lacks_item_identity :
    tts_csv 2000 "gtts"
      [⟨"x.mp3", "hello"⟩, ⟨"b.mp3", "world"⟩, ⟨"y.mp3", "there"⟩] sgFailB spOk
      = (.error (.synthFailed "gTTS not installed. Run: pip install gTTS"), 2)
    ∧ pyContains
        (renderBatchError (.synthFailed "gTTS not installed. Run: pip install gTTS"))
        "b.mp3" = false
    ∧ pyContains
        (renderBatchError (.synthFailed "gTTS not installed. Run: pip install gTTS"))
        "2" = false := by
  refine ⟨by decide, by decide, by decide⟩

/-- C3 (amended): for every single-item request whose stripped text
has length greater than the limit, validation fails and no backend
synthesis call is made.  The original claim over the raw text length
is refuted by C3_counterexample_padded_text_passes: stripping happens
before the length check. -/
theorem C3_oversized_text_rejected_before_backend (maxChars : Nat)
    (req : TTSRequest) (sG sP : String → Except String Bytes)
    (h : maxChars < (pyStrip req.text).length) :
    (tts maxChars req sG sP).2 = 0
    ∧ ∃ e, (tts maxChars req sG sP).1 = .error e := by
  unfold tts
  cases he : validate_engine req.engine with
  | error e =>
    exact ⟨rfl, e, rfl⟩
  | ok eng =>
    have hne : ¬ pyStrip req.text = "" := by
      intro h0
      rw [h0, show ("" : String).length = 0 from rfl] at h
      exact absurd h (Nat.not_lt_zero maxChars)
    have hv : validate_text maxChars req.text
        = .error ("text exceeds limit of " ++ toString maxChars ++ " characters") := by
      show (if pyStrip req.text = "" then _
        else if maxChars < (pyStrip req.text).length then _ else _) = _
      rw [if_neg hne, if_pos h]
    rw [hv]
    exact ⟨rfl, _, rfl⟩

/-- C3 witness: at limit 5, a seven-character text is rejected with
no backend call. -/
theorem C3_witness :
    (tts 5 { text := "1234567" } sgStr spStr).2 = 0
    ∧ ∃ e, (tts 5 { text := "1234567" } sgStr spStr).1 = .error e :=
  C3_oversized_text_rejected_before_backend 5 { text := "1234567" } sgStr spStr
    (by decide)

/-- C3 counterexample: a request whose raw text has 2001 characters
(2000 letters and a trailing space) exceeds the default limit of
2000, yet validation passes — the text is stripped first — and a
backend synthesis call is made. -/
theorem C3_counterexample_padded_text_passes :
    textPad.length = 2001 ∧ MAX_CHARS = 2000 ∧
    tts MAX_CHARS { text := textPad } sgStr spStr = (.ok [1], 1) := by
  refine ⟨?_, rfl, ?_⟩
  · rw [show textPad.length = (List.replicate 2000 'a' ++ [' ']).length from rfl,
      List.length_append, List.length_replicate]
    rfl
  · have hne : ¬ (⟨List.replicate 2000 'a'⟩ : String) = "" :=
      mk_replicate_ne_empty (by decide) 'a'
    have hlen : ¬ MAX_CHARS < (⟨List.replicate 2000 'a'⟩ : String).length := by
      rw [mk_replicate_length]
      decide
    have hv : validate_text MAX_CHARS textPad = .ok ⟨List.replicate 2000 'a'⟩ :=
      validate_text_ok pyStrip_textPad hne hlen
    unfold tts
    rw [show validate_engine ({ text := textPad } : TTSRequest).engine
        = .ok "gtts" from rfl,
      show ({ text := textPad } : TTSRequest).text = textPad from rfl, hv]
    rfl

/-- C4 (amended): for every non-empty voice preference string, when
enumeration succeeds and the voice property write does not raise,
the selected voice is the first voice in enumeration order whose
lowercased name or lowercased gender label contains the lowercased
preference as a substring; if no voice matches, the default voice is
left unchanged and no error is raised; an absent preference skips
matching.  The original claim over every preference string is
refuted by C4_counterexample_empty_preference: the empty string —
which matches every voice under the substring rule — is skipped like
an absent preference. -/
theorem C4_voice_preference_first_substring_match (env : Pyttsx3Env)
    (e : EngineState) (p : String) (voices : List Voice)
    (hp : p ≠ "") (hv : env.voicesRes = .ok voices)
    (hs : env.setVoiceFails = false) :
    ((_pyttsx3_select_voice env e (some p)).voiceId
      = match voices.find? (voiceMatches p) with
        | some v => some v.id
        | none => e.voiceId)
    ∧ (voices.find? (voiceMatches p) = none →
        _pyttsx3_select_voice env e (some p) = e)
    ∧ _pyttsx3_select_voice env e none = e := by
  refine ⟨?_, ?_, rfl⟩
  · show ((if p = "" then e else match env.voicesRes with
      | .error _ => e
      | .ok voices => match voices.find? (voiceMatches p) with
        | none => e
        | some v => if env.setVoiceFails then e
            else { e with voiceId := some v.id }).voiceId = _)
    rw [if_neg hp, hv]
    show ((match voices.find? (voiceMatches p) with
      | none => e
      | some v => if env.setVoiceFails then e
          else { e with voiceId := some v.id }).voiceId = _)
    cases hf : voices.find? (voiceMatches p) with
    | none => rfl
    | some v => rw [hs]; rfl
  · intro hnone
    show (if p = "" then e else match env.voicesRes with
      | .error _ => e
      | .ok voices => match voices.find? (voiceMatches p) with
        | none => e
        | some v => if env.setVoiceFails then e
            else { e with voiceId := some v.id }) = e
    rw [if_neg hp, hv]
    show (match voices.find? (voiceMatches p) with
      | none => e
      | some v => if env.setVoiceFails then e
          else { e with voiceId := some v.id }) = e
    rw [hnone]

/-- C4 witness: preference female selects the one enumerated voice
whose gender label contains female. -/
theorem C4_witness :
    ((_pyttsx3_select_voice envAlice d0 (some "female")).voiceId
      = match [aliceVoice].find? (voiceMatches "female") with
        | some v => some v.id
        | none => d0.voiceId)
    ∧ ([aliceVoice].find? (voiceMatches "female") = none →
        _pyttsx3_select_voice envAlice d0 (some "female") = d0)
    ∧ _pyttsx3_select_voice envAlice d0 none = d0 :=
  C4_voice_preference_first_substring_match envAlice d0 "female" [aliceVoice]
    (by decide) rfl rfl

/-- C4 counterexample: with one available voice, the empty preference
string selects nothing (the default voice is kept), although the
claimed substring rule matches the first voice — the empty string is
a substring of every name. -/
theorem C4_counterexample_empty_preference :
    (_pyttsx3_select_voice envAlice d0 (some "")).voiceId = none
    ∧ selectVoiceSpec "" [aliceVoice] = some aliceVoice
    ∧ aliceVoice.id = "id1" := by
  refine ⟨rfl, by decide, rfl⟩

/-- C5: every successful batch produces an archive with exactly one
entry per collected item, in input order, each named by the item's
filename with its extension replaced by .mp3 (splitext root plus
.mp3) and carrying that item's synthesized bytes; duplicates are
neither deduplicated nor renamed, since the archive is literally the
per-item map. -/
theorem C5_archive_one_entry_per_item_in_order (maxChars : Nat)
    (engine : String) (rows : List CsvRow)
    (sG sP : Item → Except String Bytes)
    (arch : List (String × Bytes)) (n : Nat)
    (h : tts_csv maxChars engine rows sG sP = (.ok arch, n)) :
    ∃ items, collectRows maxChars rows = .ok items
      ∧ arch = items.map (fun i =>
          (entryName i.filename, okBytes (engineSynth (pyLower engine) sG sP i)))
      ∧ n = items.length := by
  by_cases heng : pyLower engine = "gtts" ∨ pyLower engine = "pyttsx3"
  · rw [tts_csv_valid_engine _ _ _ _ _ heng] at h
    cases hc : collectRows maxChars rows with
    | error e => rw [hc] at h; cases h
    | ok items =>
      rw [hc] at h
      cases items with
      | nil => cases h
      | cons i rest =>
        obtain ⟨h1, h2⟩ := zipEntries_ok _ h
        exact ⟨i :: rest, rfl, h1, h2⟩
  · unfold tts_csv at h
    rw [if_neg heng] at h
    cases h

/-- C5 witness: the spec's example batch of a.mp3/hello and
b.mp3/world under the cloud engine yields exactly the two entries
a.mp3 and b.mp3, in that order. -/
theorem C5_witness :
    ∃ items, collectRows 2000 [⟨"a.mp3", "hello"⟩, ⟨"b.mp3", "world"⟩] = .ok items
      ∧ [("a.mp3", [1]), ("b.mp3", [1])] = items.map (fun i =>
          (entryName i.filename, okBytes (engineSynth (pyLower "gtts") sgOk spOk i)))
      ∧ 2 = items.length :=
  C5_archive_one_entry_per_item_in_order 2000 "gtts"
    [⟨"a.mp3", "hello"⟩, ⟨"b.mp3", "world"⟩] sgOk spOk
    [("a.mp3", [1]), ("b.mp3", [1])] 2 (by decide)

/-- C6: rows with a blank (empty after stripping) filename or text
cell are silently skipped — the collection loop behaves exactly as
if they had been filtered out up front, so they are never counted as
failures and the length and empty-batch checks apply only to the
surviving rows — and when zero valid rows remain the batch fails
with the empty-batch error and no synthesis call. -/
theorem C6_blank_rows_silently_skipped_empty_batch_fails (maxChars : Nat) :
    (∀ rows, collectRows maxChars rows = collectRows maxChars (rows.filter validRow))
    ∧ (∀ r rows, validRow r = false →
        collectRows maxChars (r :: rows) = collectRows maxChars rows)
    ∧ (∀ engine rows sG sP,
        (pyLower engine = "gtts" ∨ pyLower engine = "pyttsx3") →
        collectRows maxChars rows = .ok [] →
        tts_csv maxChars engine rows sG sP = (.error .emptyBatch, 0)) := by
  refine ⟨collectRows_eq_filter maxChars, ?_, ?_⟩
  · intro r rows hr
    simp only [validRow, decide_eq_false_iff_not] at hr
    have h : pyStrip r.filename = "" ∨ pyStrip r.script_text = "" := by
      tauto
    show (if pyStrip r.filename = "" ∨ pyStrip r.script_text = ""
      then collectRows maxChars rows else _) = _
    rw [if_pos h]
  · intro engine rows sG sP heng hrows
    rw [tts_csv_valid_engine _ _ _ _ _ heng, hrows]

/-- C6 witness: a one-row batch whose filename cell is blank (and
whose oversized text would otherwise be an error at limit 2) is
skipped without failure, and the emptied batch reports the
empty-batch error with no synthesis. -/
theorem C6_witness :
    collectRows 2 [⟨" ", "hello"⟩]
      = collectRows 2 ([⟨" ", "hello"⟩].filter validRow)
    ∧ collectRows 2 [⟨" ", "hello"⟩, ⟨"a.mp3", "hi"⟩]
      = collectRows 2 [⟨"a.mp3", "hi"⟩]
    ∧ tts_csv 2 "gtts" [⟨" ", "hello"⟩] sgOk spOk = (.error .emptyBatch, 0) :=
  ⟨(C6_blank_rows_silently_skipped_empty_batch_fails 2).1 [⟨" ", "hello"⟩],
   (C6_blank_rows_silently_skipped_empty_batch_fails 2).2.1
     ⟨" ", "hello"⟩ [⟨"a.mp3", "hi"⟩] (by decide),
   (C6_blank_rows_silently_skipped_empty_batch_fails 2).2.2
     "gtts" [⟨" ", "hello"⟩] sgOk spOk (Or.inl (by decide)) (by decide)⟩

/-- C7 (amended to the backend endpoint): every local-engine request
through synthesize_pyttsx3_mp3 made while the transcoder (pydub) is
unavailable fails with the transcoder-unavailable error before any
synthesis (zero engine runs) and leaves no file behind.  The CLI
script instead synthesizes and deliberately keeps the unconverted
WAV, refuting the original claim over every local-engine request:
see C7_counterexample_cli_keeps_wav. -/
theorem C7_transcoder_checked_before_any_synthesis (env : Pyttsx3Env)
    (text : String) (voice : Option String) (rate : Option Int)
    (volume : Option Rat) (w : EngineState)
    (hpy : env.pyttsx3Avail = true) (hpd : env.pydubAvail = false) :
    synthesize_pyttsx3_mp3 env text voice rate volume w
      = (⟨.error .transcoderUnavailable, 0, []⟩, w) := by
  unfold synthesize_pyttsx3_mp3
  rw [hpy, hpd]
  rfl

/-- C7 witness: a concrete pydub-less world rejects a local request
with zero synthesis runs and no files. -/
theorem C7_witness :
    synthesize_pyttsx3_mp3 envNoPydub "hi" none none none w0
      = (⟨.error .transcoderUnavailable, 0, []⟩, w0) :=
  C7_transcoder_checked_before_any_synthesis envNoPydub "hi" none none none w0
    rfl rfl

/-- C7 counterexample: the CLI local path with pydub unavailable does
not fail with a transcoder error: it synthesizes the item (one
engine run) and leaves the unconverted a.wav behind. -/
theorem C7_counterexample_cli_keeps_wav :
    save_with_pyttsx3 cliNoPydub [⟨"a.mp3", "hi"⟩] none none none true w0
      = (⟨.ok (), 1, ["a.wav"]⟩, d0)
    ∧ (1 : Nat) ≠ 0 ∧ (["a.wav"] : List String) ≠ [] := by
  refine ⟨by decide, by decide, by decide⟩

/-- C8: both synthesis entry points construct a fresh engine per
invocation, so their observable outcome never depends on the engine
state configured by earlier calls: the result is identical for any
two prior configuration states, and a run sandwiched between two
identically-parameterized runs cannot change the second one's
result. -/
theorem C8_fresh_engine_no_state_between_calls :
    (∀ env text voice rate volume w₁ w₂,
      (synthesize_pyttsx3_mp3 env text voice rate volume w₁).1
        = (synthesize_pyttsx3_mp3 env text voice rate volume w₂).1)
    ∧ (∀ env items pref rate volume conv w₁ w₂,
      (save_with_pyttsx3 env items pref rate volume conv w₁).1
        = (save_with_pyttsx3 env items pref rate volume conv w₂).1)
    ∧ (∀ env t₁ v₁ r₁ vol₁ t₂ v₂ r₂ vol₂ w,
      (synthesize_pyttsx3_mp3 env t₂ v₂ r₂ vol₂
          ((synthesize_pyttsx3_mp3 env t₁ v₁ r₁ vol₁ w).2)).1
        = (synthesize_pyttsx3_mp3 env t₂ v₂ r₂ vol₂ w).1) := by
  have h1 : ∀ env text voice rate volume w₁ w₂,
      (synthesize_pyttsx3_mp3 env text voice rate volume w₁).1
        = (synthesize_pyttsx3_mp3 env text voice rate volume w₂).1 := by
    intro env text voice rate volume w₁ w₂
    unfold synthesize_pyttsx3_mp3
    by_cases ha : env.pyttsx3Avail = true <;>
      by_cases hb : env.pydubAvail = true <;>
      simp [ha, hb]
  refine ⟨h1, ?_, fun env t₁ v₁ r₁ vol₁ t₂ v₂ r₂ vol₂ w => h1 env t₂ v₂ r₂ vol₂ _ w⟩
  intro env items pref rate volume conv w₁ w₂
  unfold save_with_pyttsx3
  by_cases ha : env.pyttsx3Avail = true
  · simp only [ha, if_true]
    cases hc : cliSelectVoice env.voicesRes (configureEngine env.defaults rate volume) pref
      <;> rfl
  · simp [ha]

/-- C9: in the shared configuration block of both local-engine paths,
a rate of 0 is silently ignored — the configured state is the same
as with no rate at all, keeping the backend default — while a volume
of 0 (and any other volume value) is applied to the engine; the two
optional parameters are treated asymmetrically at zero.  The
backend synthesis function is pointwise unaffected by replacing rate
some 0 with none. -/
theorem C9_zero_rate_ignored_zero_volume_applied :
    (∀ d volume, configureEngine d (some 0) volume = configureEngine d none volume)
    ∧ (∀ d volume, (configureEngine d (some 0) volume).rate = d.rate)
    ∧ (∀ d rate v, (configureEngine d rate (some v)).volume = v)
    ∧ (∀ env text voice volume w,
        synthesize_pyttsx3_mp3 env text voice (some 0) volume w
          = synthesize_pyttsx3_mp3 env text voice none volume w)
    ∧ (∀ env items pref volume conv w,
        save_with_pyttsx3 env items pref (some 0) volume conv w
          = save_with_pyttsx3 env items pref none volume conv w) := by
  have hconf : ∀ d volume,
      configureEngine d (some 0) volume = configureEngine d none volume := by
    intro d volume
    cases volume <;> rfl
  refine ⟨hconf, ?_, ?_, ?_, ?_⟩
  · intro d volume
    cases volume <;> rfl
  · intro d rate v
    rfl
  · intro env text voice volume w
    unfold synthesize_pyttsx3_mp3
    rw [hconf]
  · intro env items pref volume conv w
    unfold save_with_pyttsx3
    rw [hconf]

/-- C10: voice preference handling never fails a request: when voice
enumeration raises, the selection helper swallows the error and
keeps the engine state (hence the default voice) unchanged, when the
voice property write raises the state is likewise kept, and a
synthesis request still succeeds end to end whenever the backend and
transcoder are available. -/
theorem C10_voice_selection_never_fails (env : Pyttsx3Env) :
    (∀ e pref msg, env.voicesRes = .error msg →
      _pyttsx3_select_voice env e pref = e)
    ∧ (∀ e pref, env.setVoiceFails = true →
      _pyttsx3_select_voice env e pref = e)
    ∧ (∀ text voice rate volume w mp3 msg, env.voicesRes = .error msg →
        env.pyttsx3Avail = true → env.pydubAvail = true →
        env.convert (env.synthWav (configureEngine env.defaults rate volume) text)
          = .ok mp3 →
        (synthesize_pyttsx3_mp3 env text voice rate volume w).1.result
          = .ok mp3) := by
  have hsel : ∀ e pref msg, env.voicesRes = .error msg →
      _pyttsx3_select_voice env e pref = e := by
    intro e pref msg hmsg
    cases pref with
    | none => rfl
    | some p =>
      show (if p = "" then e else match env.voicesRes with
        | .error _ => e
        | .ok voices => match voices.find? (voiceMatches p) with
          | none => e
          | some v => if env.setVoiceFails then e
              else { e with voiceId := some v.id }) = e
      by_cases hp : p = ""
      · rw [if_pos hp]
      · rw [if_neg hp, hmsg]
  refine ⟨hsel, ?_, ?_⟩
  · intro e pref hfail
    cases pref with
    | none => rfl
    | some p =>
      show (if p = "" then e else match env.voicesRes with
        | .error _ => e
        | .ok voices => match voices.find? (voiceMatches p) with
          | none => e
          | some v => if env.setVoiceFails then e
              else { e with voiceId := some v.id }) = e
      by_cases hp : p = ""
      · rw [if_pos hp]
      · rw [if_neg hp]
        cases env.voicesRes with
        | error msg => rfl
        | ok voices =>
          show (match voices.find? (voiceMatches p) with
            | none => e
            | some v => if env.setVoiceFails then e
                else { e with voiceId := some v.id }) = e
          cases voices.find? (voiceMatches p) with
          | none => rfl
          | some v => rw [hfail]; rfl
  · intro text voice rate volume w mp3 msg hmsg hpy hpd hconv
    unfold synthesize_pyttsx3_mp3
    simp only [hpy, hpd, if_true]
    rw [hsel _ _ _ hmsg, hconv]

/-- C10 witness: with enumeration raising (and the property write
also broken), selection keeps the default state and a local request
still synthesizes successfully. -/
theorem C10_witness :
    _pyttsx3_select_voice envVoiceErr d0 (some "female") = d0
    ∧ (synthesize_pyttsx3_mp3 envVoiceErr "hi" (some "female") none none w0).1.result
      = .ok [1, 2, 3] :=
  ⟨(C10_voice_selection_never_fails envVoiceErr).1 d0 (some "female") "boom" rfl,
   (C10_voice_selection_never_fails envVoiceErr).2.2 "hi" (some "female")
     none none w0 [1, 2, 3] "boom" rfl rfl rfl rfl⟩
